import Mathlib

set_option maxHeartbeats 1000000

/- Shallow embedding of the ESP32 ATEM tally system core:
   bridge side from `ESP32_ATEM_Bridge_BLE_v3.cpp`, receiver side from
   `ESP32_Tally_Light_BLE_v2.cpp`.  Machine bytes are `Nat` values < 256,
   timestamps are `Nat` milliseconds, C strings are `List Char` or, on the
   wire, `List Nat` byte sequences. -/

/-- Configuration constant MAX_CAMERAS from the bridge. -/
def MAX_CAMERAS : Nat := 20

/-- Configuration constant MAX_TALLY_DEVICES from the bridge. -/
def MAX_TALLY_DEVICES : Nat := 4

/-- Receiver configuration constant HEARTBEAT_TIMEOUT (ms). -/
def HEARTBEAT_TIMEOUT : Nat := 15000

/-- Receiver configuration constant MESSAGE_TIMEOUT (ms). -/
def MESSAGE_TIMEOUT : Nat := 60000

/-- Receiver configuration constant RECONNECT_INTERVAL (ms). -/
def RECONNECT_INTERVAL : Nat := 15000

/-- Receiver configuration constant MAX_RECONNECT_ATTEMPTS. -/
def MAX_RECONNECT_ATTEMPTS : Nat := 5

/-- Receiver configuration constant REGISTRATION_RETRY_INTERVAL (ms). -/
def REGISTRATION_RETRY_INTERVAL : Nat := 5000

/-- Wire message struct `TallyMessage` (packed, 20 bytes).  `state` is the
12-byte `char state[12]` buffer, `bridgeStatus` is the source status byte. -/
structure TallyMessage where
  cameraId : Nat
  state : List Nat
  timestamp : Nat
  bridgeId : Nat
  bridgeStatus : Nat
  checksum : Nat
deriving DecidableEq

/-- XOR-fold of a byte list starting from an accumulator. -/
def foldlXor (init : Nat) (l : List Nat) : Nat :=
  l.foldl (fun a b => a ^^^ b) init

/-- The bytes `strlen` walks over: the prefix of the state buffer before the
first NUL byte. -/
def strlenState (s : List Nat) : List Nat :=
  s.takeWhile (fun b => b != 0)

/-- `calculateChecksum` from both sources: XOR of cameraId, bridgeId,
bridgeStatus and the state bytes up to the NUL terminator.  The checksum
field itself is never read. -/
def calculateChecksum (msg : TallyMessage) : Nat :=
  foldlXor ((msg.cameraId ^^^ msg.bridgeId) ^^^ msg.bridgeStatus) (strlenState msg.state)

/-- `verifyMessage` from the receiver: zero the checksum field, recompute,
compare with the received checksum. -/
def verifyMessage (msg : TallyMessage) : Bool :=
  msg.checksum == calculateChecksum { msg with checksum := 0 }

/-- Effect of `strncpy(msg.state, state, sizeof(msg.state)-1)` followed by
`msg.state[sizeof(msg.state)-1] = 0`: copy at most 11 bytes, NUL-pad the
12-byte buffer. -/
def strncpyState (src : List Nat) : List Nat :=
  let copied := src.take 11
  copied ++ List.replicate (12 - copied.length) 0

/-- Message construction as done in `sendTallyToDevice`: fill the fields,
copy the state string, compute the checksum last. -/
def mkTallyMessage (cameraId : Nat) (state : List Nat)
    (timestamp bridgeId bridgeStatus : Nat) : TallyMessage :=
  let m0 : TallyMessage :=
    { cameraId := cameraId, state := strncpyState state, timestamp := timestamp,
      bridgeId := bridgeId, bridgeStatus := bridgeStatus, checksum := 0 }
  { m0 with checksum := calculateChecksum m0 }

/-- Little-endian bytes of a u32. -/
def toLE4 (n : Nat) : List Nat :=
  [n % 256, n / 256 % 256, n / 65536 % 256, n / 16777216 % 256]

/-- Value of four little-endian bytes. -/
def fromLE4 (b0 b1 b2 b3 : Nat) : Nat :=
  b0 + 256 * b1 + 65536 * b2 + 16777216 * b3

/-- Byte layout of the packed `TallyMessage` struct as sent over BLE:
cameraId, 12 state bytes, 4 timestamp bytes (little endian), bridgeId,
bridgeStatus, checksum — 20 bytes. -/
def serializeTally (msg : TallyMessage) : List Nat :=
  msg.cameraId ::
    (msg.state ++ (toLE4 msg.timestamp ++ [msg.bridgeId, msg.bridgeStatus, msg.checksum]))

/-- Receiver-side decode (`notifyCallback`): accept exactly
`sizeof(TallyMessage)` bytes and reinterpret them as the struct. -/
def decodeTally (bs : List Nat) : Option TallyMessage :=
  if bs.length = 20 then
    some { cameraId := bs.getD 0 0, state := (bs.drop 1).take 12,
           timestamp := fromLE4 (bs.getD 13 0) (bs.getD 14 0) (bs.getD 15 0) (bs.getD 16 0),
           bridgeId := bs.getD 17 0, bridgeStatus := bs.getD 18 0, checksum := bs.getD 19 0 }
  else none

/-- Flip bit `k` of byte `p` of an encoded block. -/
def flipBit (bs : List Nat) (p k : Nat) : List Nat :=
  bs.set p ((bs.getD p 0) ^^^ 2 ^ k)

/-- The bridge's scan for `anyProgramActive`: some camera 1..MAX_CAMERAS has
the Program/Live bit set in `currentTallyStates`. -/
def anyProgramActive (currentTallyStates : Nat → Nat) : Bool :=
  (List.range' 1 MAX_CAMERAS).any (fun cam => (currentTallyStates cam &&& 1) != 0)

/-- `getCurrentTallyState` from the bridge: derive the display state string
for a camera from the raw tally bits, the ATEM connection status and the
standby-preview flag. -/
def getCurrentTallyState (atemConnected standbyAsPreview : Bool)
    (currentTallyStates : Nat → Nat) (cameraId : Nat) : String :=
  if cameraId < 1 ∨ cameraId > MAX_CAMERAS then "OFF"
  else if !atemConnected then "NO_ATEM"
  else if (currentTallyStates cameraId &&& 1) != 0 then "PROGRAM"
  else if (currentTallyStates cameraId &&& 2) != 0 then "PREVIEW"
  else if standbyAsPreview && anyProgramActive currentTallyStates then "PREVIEW"
  else "OFF"

/-- A slot of the bridge's `tallyDevices` registry.  The BLE characteristic
pointer is modelled by whether it is non-null. -/
structure TallyDevice where
  deviceName : List Char
  cameraId : Nat
  lastSeen : Nat
  connected : Bool
  registered : Bool
  hasCharacteristic : Bool
deriving DecidableEq

instance : Inhabited TallyDevice :=
  ⟨{ deviceName := [], cameraId := 0, lastSeen := 0,
     connected := false, registered := false, hasCharacteristic := false }⟩

/-- The slot-claiming loop inside `MyCharacteristicCallbacks::onWrite`: take
the first slot that is unregistered or stores the same identity, update it in
place, and stop. -/
def registerDevice : List TallyDevice → Nat → List Char → Nat → List TallyDevice
  | [], _, _, _ => []
  | d :: rest, cid, name, now =>
    if !d.registered || d.deviceName == name then
      { d with deviceName := name, cameraId := cid, lastSeen := now,
               connected := true, registered := true, hasCharacteristic := true } :: rest
    else
      d :: registerDevice rest cid name now

/-- Guard of `sendTallyToDevice`: the notify happens iff the index is in
range, the slot is connected and its characteristic is non-null. -/
def sendTallyToDevice (devices : List TallyDevice) (deviceIndex : Nat) : Bool :=
  decide (deviceIndex < devices.length) && (devices.getD deviceIndex default).connected
    && (devices.getD deviceIndex default).hasCharacteristic

/-- `broadcastTallyData(cameraId, state)`: indices of the slots that actually
receive the encoded message.  The loop sends to every connected and
registered slot; `sendTallyToDevice` re-checks its own guard. -/
def broadcastTallyData (devices : List TallyDevice) (cameraId : Nat) (state : String) :
    List Nat :=
  (List.range devices.length).filter
    (fun i => ((devices.getD i default).connected && (devices.getD i default).registered)
      && sendTallyToDevice devices i)

/-- `MyServerCallbacks::onDisconnect`: mark the first slot whose `connected`
flag is set as disconnected (the source itself notes this does not identify
which physical device dropped). -/
def serverOnDisconnect : List TallyDevice → List TallyDevice
  | [] => []
  | d :: rest =>
    if d.connected then { d with connected := false } :: rest
    else d :: serverOnDisconnect rest

/-- Whitespace test used by Arduino `String::trim` (isspace). -/
def isSpaceChar (c : Char) : Bool :=
  c == ' ' || c == '\t' || c == '\n' || c == '\x0b' || c == '\x0c' || c == '\r'

/-- Arduino `String::trim`: strip whitespace from both ends. -/
def trimChars (s : List Char) : List Char :=
  ((s.dropWhile isSpaceChar).reverse.dropWhile isSpaceChar).reverse

/-- Arduino `String::startsWith`. -/
def startsWithChars : List Char → List Char → Bool
  | _, [] => true
  | [], _ :: _ => false
  | c :: cs, q :: qs => c == q && startsWithChars cs qs

/-- Helper for `indexOfFrom`, counting positions in the original string. -/
def indexOfAux : List Char → Char → Nat → Int
  | [], _, _ => -1
  | c :: cs, target, idx =>
    if c == target then Int.ofNat idx else indexOfAux cs target (idx + 1)

/-- Arduino `String::indexOf(ch, fromIndex)`: index of the first occurrence
at or after `fromIdx`, or -1. -/
def indexOfFrom (s : List Char) (target : Char) (fromIdx : Nat) : Int :=
  indexOfAux (s.drop fromIdx) target fromIdx

/-- Arduino `String::substring(from, to)`: the half-open range, with the
bounds swapped when given in reverse order. -/
def substringFT (s : List Char) (fromIdx toIdx : Nat) : List Char :=
  let lo := if fromIdx ≤ toIdx then fromIdx else toIdx
  let hi := if fromIdx ≤ toIdx then toIdx else fromIdx
  (s.take hi).drop lo

/-- Arduino `String::substring(from)`: the suffix. -/
def substringFrom (s : List Char) (fromIdx : Nat) : List Char :=
  s.drop fromIdx

/-- Leading decimal digits, as accumulated by `atol`. -/
def digitsVal : List Char → Nat → Nat
  | [], acc => acc
  | c :: cs, acc => if c.isDigit then digitsVal cs (acc * 10 + (c.toNat - 48)) else acc

/-- Arduino `String::toInt` (atol): skip whitespace, optional sign, leading
digits; 0 when no digits. -/
def toIntChars (s : List Char) : Int :=
  match s.dropWhile isSpaceChar with
  | '-' :: rest => - Int.ofNat (digitsVal rest 0)
  | '+' :: rest => Int.ofNat (digitsVal rest 0)
  | t => Int.ofNat (digitsVal t 0)

/-- `MyCharacteristicCallbacks::onWrite`: trim the written bytes, require the
`TALLY_REG:` prefix, locate a colon from index 10 and a second colon after
it, parse the camera id (cast to uint8_t) and take the identity after the
second found colon, then run the slot-claiming loop. -/
def onWrite (devices : List TallyDevice) (now : Nat) (rxValue : List Char) :
    List TallyDevice :=
  if rxValue.length > 0 then
    let message := trimChars rxValue
    if startsWithChars message ("TALLY_REG:".toList) then
      let firstColon := indexOfFrom message ':' 10
      let secondColon := indexOfFrom message ':' (firstColon + 1).toNat
      if firstColon > 0 ∧ secondColon > 0 then
        let cameraId := ((toIntChars (substringFT message 10 firstColon.toNat)) % 256).toNat
        let deviceName := substringFrom message (secondColon.toNat + 1)
        registerDevice devices cameraId deviceName now
      else devices
    else devices
  else devices

/-- Receiver connection states. -/
inductive ConnState where
  | DISCONNECTED
  | SCANNING
  | CONNECTING
  | CONNECTED
  | REGISTERED
  | ERROR
deriving DecidableEq

/-- LED indications selected by `updateTallyLED` (blink phase abstracted). -/
inductive LedMode where
  | MagentaBlink
  | RedSolid
  | GreenSolid
  | YellowPulse
  | BlueHeartbeat
  | BlueSolid
  | OrangeFastBlink
  | OrangeSlowBlink
  | PurpleSolid
  | LedOff
deriving DecidableEq

/-- Receiver-side mutable state (globals of the tally-light sketch). -/
structure Receiver where
  currentState : ConnState
  currentTallyState : String
  bridgeHasATEM : Bool
  connected : Bool
  registered : Bool
  doConnect : Bool
  doScan : Bool
  hasRemoteCharacteristic : Bool
  lastMessageReceived : Nat
  lastHeartbeatReceived : Nat
  lastConnectionAttempt : Nat
  lastRegistrationAttempt : Nat
  reconnectAttempts : Nat
  totalOnlineTime : Nat
  lastOnlineStart : Nat
deriving DecidableEq

/-- `registerWithBridge`: write the registration string, then optimistically
mark the receiver registered. -/
def registerWithBridge (r : Receiver) (now : Nat) : Receiver :=
  if !r.connected || !r.hasRemoteCharacteristic then r
  else { r with lastRegistrationAttempt := now, registered := true,
                currentState := ConnState.REGISTERED }

/-- Second block of `handleConnection`: reconnection scheduling with the
bounded retry counter. -/
def handleReconnectAttempts (r : Receiver) (now : Nat) : Receiver :=
  if r.connected = false ∧ r.doConnect = false ∧ r.doScan = false then
    if now - r.lastConnectionAttempt > RECONNECT_INTERVAL then
      if r.reconnectAttempts < MAX_RECONNECT_ATTEMPTS then
        { r with doScan := true, reconnectAttempts := r.reconnectAttempts + 1,
                 lastConnectionAttempt := now }
      else if now - r.lastConnectionAttempt > RECONNECT_INTERVAL * 3 then
        { r with reconnectAttempts := 0 }
      else r
    else r
  else r

/-- Third block of `handleConnection`: re-register when connected but not
registered and the registration retry interval elapsed. -/
def handleRegistrationRetry (r : Receiver) (now : Nat) : Receiver :=
  if r.connected = true ∧ r.registered = false
      ∧ now - r.lastRegistrationAttempt > REGISTRATION_RETRY_INTERVAL then
    registerWithBridge r now
  else r

/-- `handleConnection`: message-timeout teardown (the returned flag records
that `pClient->disconnect()` was issued and the function returned early),
then reconnection scheduling, then registration retry. -/
def handleConnection (r : Receiver) (now : Nat) : Receiver × Bool :=
  if r.connected = true ∧ now - r.lastMessageReceived > MESSAGE_TIMEOUT then
    (r, true)
  else
    (handleRegistrationRetry (handleReconnectAttempts r now) now, false)

/-- `MyClientCallback::onDisconnect`: clear the link flags, enter
DISCONNECTED, account online time, and schedule a rescan. -/
def clientOnDisconnect (r : Receiver) (now : Nat) : Receiver :=
  { r with connected := false, registered := false,
           currentState := ConnState.DISCONNECTED,
           totalOnlineTime :=
             if r.lastOnlineStart > 0 then r.totalOnlineTime + (now - r.lastOnlineStart)
             else r.totalOnlineTime,
           lastOnlineStart := if r.lastOnlineStart > 0 then 0 else r.lastOnlineStart,
           doScan := true, lastConnectionAttempt := now }

/-- The branch of `updateTallyLED` selected for a given receiver state and
time; blink phases and the `flashLED` transient are abstracted into the
chosen mode. -/
def ledIndication (r : Receiver) (now : Nat) : LedMode :=
  if r.currentState = ConnState.REGISTERED
      ∧ now - r.lastHeartbeatReceived > HEARTBEAT_TIMEOUT then
    LedMode.MagentaBlink
  else if r.currentState = ConnState.REGISTERED then
    if r.currentTallyState = "PROGRAM" then LedMode.RedSolid
    else if r.currentTallyState = "PREVIEW" then LedMode.GreenSolid
    else if r.currentTallyState = "STANDBY" then LedMode.GreenSolid
    else if r.currentTallyState = "NO_ATEM" ∨ r.bridgeHasATEM = false then LedMode.YellowPulse
    else LedMode.BlueHeartbeat
  else if r.currentState = ConnState.CONNECTED then LedMode.BlueSolid
  else if r.currentState = ConnState.CONNECTING then LedMode.OrangeFastBlink
  else if r.currentState = ConnState.SCANNING then LedMode.OrangeSlowBlink
  else if r.currentState = ConnState.ERROR then LedMode.PurpleSolid
  else LedMode.LedOff

/-- Bytes of the state string PROGRAM. -/
def progBytes : List Nat := [80, 82, 79, 71, 82, 65, 77]

/-- Raw tally snapshot: camera 1 live, all other cameras idle. -/
def exStates : Nat → Nat := fun c => if c = 1 then 1 else 0

/-- Registry with one link-up, registered slot assigned to camera 2. -/
def exRegistry : List TallyDevice :=
  [{ deviceName := ['A'], cameraId := 2, lastSeen := 0,
     connected := true, registered := true, hasCharacteristic := true }]

/-- A registered receiver whose timers all read zero. -/
def exReceiver : Receiver :=
  { currentState := ConnState.REGISTERED, currentTallyState := "OFF", bridgeHasATEM := true,
    connected := true, registered := true, doConnect := false, doScan := false,
    hasRemoteCharacteristic := true, lastMessageReceived := 0, lastHeartbeatReceived := 0,
    lastConnectionAttempt := 0, lastRegistrationAttempt := 0, reconnectAttempts := 0,
    totalOnlineTime := 0, lastOnlineStart := 5 }

/-- A full registry: four registered slots with distinct identities. -/
def exFullRegistry : List TallyDevice :=
  [{ deviceName := ['A'], cameraId := 1, lastSeen := 0,
     connected := true, registered := true, hasCharacteristic := true },
   { deviceName := ['B'], cameraId := 2, lastSeen := 0,
     connected := true, registered := true, hasCharacteristic := true },
   { deviceName := ['C'], cameraId := 3, lastSeen := 0,
     connected := false, registered := true, hasCharacteristic := true },
   { deviceName := ['D'], cameraId := 4, lastSeen := 0,
     connected := true, registered := true, hasCharacteristic := true }]

/-- Two slots, both with the link up. -/
def exTwoConnected : List TallyDevice :=
  [{ deviceName := ['A'], cameraId := 1, lastSeen := 0,
     connected := true, registered := true, hasCharacteristic := true },
   { deviceName := ['B'], cameraId := 2, lastSeen := 0,
     connected := true, registered := true, hasCharacteristic := true }]

/- ===================== Theorems ===================== -/

theorem handleReconnectAttempts_of_connected (r : Receiver) (now : Nat)
    (h : r.connected = true) : handleReconnectAttempts r now = r := by
  unfold handleReconnectAttempts
  rw [if_neg (by simp [h])]

theorem handleReconnectAttempts_of_doScan (r : Receiver) (now : Nat)
    (h : r.doScan = true) : handleReconnectAttempts r now = r := by
  unfold handleReconnectAttempts
  rw [if_neg (by simp [h])]

theorem handleRegistrationRetry_of_registered (r : Receiver) (now : Nat)
    (h : r.registered = true) : handleRegistrationRetry r now = r := by
  unfold handleRegistrationRetry
  rw [if_neg (by simp [h])]

theorem handleRegistrationRetry_of_not_connected (r : Receiver) (now : Nat)
    (h : r.connected = false) : handleRegistrationRetry r now = r := by
  unfold handleRegistrationRetry
  rw [if_neg (by simp [h])]

/-- Claim C1 (evidence for the code bug): the registration message in exactly
the documented form `TALLY_REG:1:Tally_CAM_1` — the very string the
receiver's `registerWithBridge` sends — is silently dropped by the bridge's
`onWrite` handler and the registry is left unchanged for every registry
contents and time: the parser demands a second colon strictly after the
camera-id delimiter (`secondColon` comes back -1), instead of taking the
identity after the first one. -/
theorem tally_reg_canonical_message_ignored (devices : List TallyDevice) (now : Nat) :
    onWrite devices now ("TALLY_REG:1:Tally_CAM_1".toList) = devices := rfl

/-- Claim C2 (counterexample): camera 2 has both raw flags clear, the source
is connected, `standbyAsPreview` is on and camera 1 is live, yet the derived
state is the string PREVIEW, not STANDBY — `getCurrentTallyState` never
produces a distinct STANDBY value. -/
theorem standby_state_counterexample :
    (exStates 2 &&& 1 = 0) ∧ (exStates 2 &&& 2 = 0) ∧ anyProgramActive exStates = true
      ∧ getCurrentTallyState true true exStates 2 = "PREVIEW"
      ∧ getCurrentTallyState true true exStates 2 ≠ "STANDBY" := by decide

/-- Claim C2 (amended): for an in-range camera with both raw flags clear and
the source connected, the derived state is the string PREVIEW (the standby
indication reuses PREVIEW) exactly when `standbyAsPreview` is on and some
camera is live, and OFF otherwise. -/
theorem standby_rule_yields_preview (currentTallyStates : Nat → Nat)
    (standbyAsPreview : Bool) (c : Nat) (h1 : 1 ≤ c) (h2 : c ≤ MAX_CAMERAS)
    (hLive : currentTallyStates c &&& 1 = 0) (hPrev : currentTallyStates c &&& 2 = 0) :
    getCurrentTallyState true standbyAsPreview currentTallyStates c
      = if standbyAsPreview && anyProgramActive currentTallyStates then "PREVIEW"
        else "OFF" := by
  have hrange : ¬(c < 1 ∨ c > MAX_CAMERAS) := by omega
  unfold getCurrentTallyState
  rw [if_neg hrange]
  simp [hLive, hPrev]

/-- Witness for the amended claim C2 at a concrete snapshot. -/
theorem standby_rule_yields_preview_witness :
    getCurrentTallyState true true exStates 2
      = if true && anyProgramActive exStates then "PREVIEW" else "OFF" :=
  standby_rule_yields_preview exStates true 2 (by decide) (by decide) (by decide) (by decide)

/-- Claim C7: with the ATEM source disconnected, every in-range camera id
derives the no-source state (string NO_ATEM in the source), whatever the raw
flags and the standby flag. -/
theorem no_atem_overrides_flags (standbyAsPreview : Bool)
    (currentTallyStates : Nat → Nat) (c : Nat) (h1 : 1 ≤ c) (h2 : c ≤ MAX_CAMERAS) :
    getCurrentTallyState false standbyAsPreview currentTallyStates c = "NO_ATEM" := by
  have hrange : ¬(c < 1 ∨ c > MAX_CAMERAS) := by omega
  unfold getCurrentTallyState
  rw [if_neg hrange]
  simp

/-- Witness for claim C7 at a concrete snapshot: camera 1 is live yet shows
NO_ATEM when the source is gone. -/
theorem no_atem_overrides_flags_witness :
    getCurrentTallyState false true exStates 1 = "NO_ATEM" :=
  no_atem_overrides_flags true exStates 1 (by decide) (by decide)

/-- Claim C10: an out-of-range camera id (0 or above MAX_CAMERAS) derives OFF
before the source-connected rule fires, so it never yields the no-source
state, for every connection status and snapshot. -/
theorem out_of_range_camera_off (atemConnected standbyAsPreview : Bool)
    (currentTallyStates : Nat → Nat) (c : Nat) (h : c < 1 ∨ c > MAX_CAMERAS) :
    getCurrentTallyState atemConnected standbyAsPreview currentTallyStates c = "OFF"
      ∧ getCurrentTallyState atemConnected standbyAsPreview currentTallyStates c
          ≠ "NO_ATEM" := by
  unfold getCurrentTallyState
  rw [if_pos h]
  exact ⟨rfl, by decide⟩

/-- Witness for claim C10 at camera ids 0 and 21 with the source down. -/
theorem out_of_range_camera_off_witness :
    (getCurrentTallyState false true exStates 0 = "OFF"
      ∧ getCurrentTallyState false true exStates 0 ≠ "NO_ATEM")
    ∧ (getCurrentTallyState false true exStates 21 = "OFF"
      ∧ getCurrentTallyState false true exStates 21 ≠ "NO_ATEM") :=
  ⟨out_of_range_camera_off false true exStates 0 (by decide),
   out_of_range_camera_off false true exStates 21 (by decide)⟩

/-- Claim C4 (counterexample): a slot that is link-up and registered but
assigned to camera 2 still receives the broadcast for camera 1 — the routing
loop never consults the slot's camera assignment. -/
theorem broadcast_ignores_camera_assignment :
    broadcastTallyData exRegistry 1 "PROGRAM" = [0]
      ∧ (exRegistry.getD 0 default).cameraId ≠ 1 := by decide

/-- Claim C4 (amended): `broadcastTallyData` sends the encoded message to
exactly the slots that are link-up, registered and hold a characteristic,
independent of the slot's camera assignment (receivers filter by camera id
themselves); link-down slots are skipped and nothing is queued. -/
theorem broadcast_recipients_characterization (devices : List TallyDevice)
    (cameraId : Nat) (state : String) (i : Nat) :
    i ∈ broadcastTallyData devices cameraId state
      ↔ i < devices.length ∧ (devices.getD i default).connected = true
        ∧ (devices.getD i default).registered = true
        ∧ (devices.getD i default).hasCharacteristic = true := by
  simp [broadcastTallyData, sendTallyToDevice, List.mem_filter, List.mem_range,
        Bool.and_eq_true, decide_eq_true_eq]
  tauto

/-- Claim C3 (counterexample): 16 s after the last heartbeat (timeout 15 s)
but only 16 s after the last message (timeout 60 s), a registered receiver
only selects the magenta blink; `handleConnection` neither requests a
teardown nor leaves REGISTERED. -/
theorem heartbeat_timeout_no_transition :
    16000 - exReceiver.lastHeartbeatReceived > HEARTBEAT_TIMEOUT
      ∧ ledIndication exReceiver 16000 = LedMode.MagentaBlink
      ∧ handleConnection exReceiver 16000 = (exReceiver, false)
      ∧ (handleConnection exReceiver 16000).1.currentState ≠ ConnState.DISCONNECTED := by
  decide

/-- Claim C3 (amended): while REGISTERED with the link up, exceeding
`HEARTBEAT_TIMEOUT` only selects the magenta connection-lost indication; the
receiver tears the transport down itself (and the disconnect callback then
moves it to DISCONNECTED) only once the time since the last received message
exceeds `MESSAGE_TIMEOUT`, and the teardown happens exactly once — after the
callback the link is marked down and later `handleConnection` calls request
no further teardown and keep the state DISCONNECTED until a new scan. -/
theorem registered_timeout_behavior (r : Receiver) (now : Nat)
    (hreg : r.currentState = ConnState.REGISTERED)
    (hconn : r.connected = true) (hregd : r.registered = true) :
    (now - r.lastHeartbeatReceived > HEARTBEAT_TIMEOUT →
      ledIndication r now = LedMode.MagentaBlink)
    ∧ (now - r.lastMessageReceived ≤ MESSAGE_TIMEOUT → handleConnection r now = (r, false))
    ∧ (now - r.lastMessageReceived > MESSAGE_TIMEOUT →
        (handleConnection r now).2 = true
        ∧ (clientOnDisconnect r now).currentState = ConnState.DISCONNECTED
        ∧ (clientOnDisconnect r now).connected = false
        ∧ ∀ m : Nat, handleConnection (clientOnDisconnect r now) m
            = (clientOnDisconnect r now, false)) := by
  refine ⟨?_, ?_, ?_⟩
  · intro h
    unfold ledIndication
    rw [if_pos ⟨hreg, h⟩]
  · intro h
    unfold handleConnection
    rw [if_neg (fun hx => absurd hx.2 (by omega))]
    rw [handleReconnectAttempts_of_connected r now hconn,
        handleRegistrationRetry_of_registered r now hregd]
  · intro h
    refine ⟨?_, rfl, rfl, ?_⟩
    · unfold handleConnection
      rw [if_pos ⟨hconn, h⟩]
    · intro m
      unfold handleConnection
      rw [if_neg (fun hx => by simp [clientOnDisconnect] at hx)]
      rw [handleReconnectAttempts_of_doScan _ m (by simp [clientOnDisconnect]),
          handleRegistrationRetry_of_not_connected _ m (by simp [clientOnDisconnect])]

/-- Witness for the amended claim C3 at a concrete receiver and time. -/
theorem registered_timeout_behavior_witness :
    (61000 - exReceiver.lastHeartbeatReceived > HEARTBEAT_TIMEOUT →
      ledIndication exReceiver 61000 = LedMode.MagentaBlink)
    ∧ (61000 - exReceiver.lastMessageReceived ≤ MESSAGE_TIMEOUT →
        handleConnection exReceiver 61000 = (exReceiver, false))
    ∧ (61000 - exReceiver.lastMessageReceived > MESSAGE_TIMEOUT →
        (handleConnection exReceiver 61000).2 = true
        ∧ (clientOnDisconnect exReceiver 61000).currentState = ConnState.DISCONNECTED
        ∧ (clientOnDisconnect exReceiver 61000).connected = false
        ∧ ∀ m : Nat, handleConnection (clientOnDisconnect exReceiver 61000) m
            = (clientOnDisconnect exReceiver 61000, false)) :=
  registered_timeout_behavior exReceiver 61000 rfl rfl rfl

/-- Claim C9: a transport disconnect event clears the `connected` flag of
exactly the lowest-index slot currently marked connected — whichever physical
device actually dropped — and leaves that slot's identity, camera assignment
and `registered` flag unchanged, and every other slot untouched. -/
theorem disconnect_clears_first_connected_slot (devices : List TallyDevice)
    (i : Nat) (hi : i < devices.length)
    (hconn : (devices.get ⟨i, hi⟩).connected = true)
    (hmin : ∀ j (hj : j < i), (devices.get ⟨j, Nat.lt_trans hj hi⟩).connected = false) :
    serverOnDisconnect devices
      = devices.set i { devices.get ⟨i, hi⟩ with connected := false } := by
  induction devices generalizing i with
  | nil => cases hi
  | cons d rest ih =>
    cases i with
    | zero =>
      have hd : d.connected = true := hconn
      simp only [serverOnDisconnect]
      rw [if_pos hd]
      rfl
    | succ j =>
      have hd : d.connected = false := hmin 0 (Nat.succ_pos j)
      simp only [serverOnDisconnect]
      rw [if_neg (by simp [hd])]
      have hj : j < rest.length := Nat.lt_of_succ_lt_succ hi
      have hconnj : (rest.get ⟨j, hj⟩).connected = true := hconn
      have hminj : ∀ j2 (hj2 : j2 < j),
          (rest.get ⟨j2, Nat.lt_trans hj2 hj⟩).connected = false :=
        fun j2 hj2 => hmin (j2 + 1) (Nat.succ_lt_succ hj2)
      rw [ih j hj hconnj hminj]
      rfl

/-- Witness for claim C9: with slots 0 and 1 both connected, the disconnect
event clears slot 0, irrespective of which device went away. -/
theorem disconnect_clears_first_connected_slot_witness :
    serverOnDisconnect exTwoConnected
      = exTwoConnected.set 0
          { exTwoConnected.get ⟨0, by decide⟩ with connected := false } :=
  disconnect_clears_first_connected_slot exTwoConnected 0 (by decide) (by decide)
    (fun j hj => absurd hj (Nat.not_lt_zero j))

theorem registerDevice_no_match (devices : List TallyDevice) (cid : Nat)
    (name : List Char) (now : Nat)
    (hall : ∀ d ∈ devices, d.registered = true)
    (hne : ∀ d ∈ devices, d.deviceName ≠ name) :
    registerDevice devices cid name now = devices := by
  induction devices with
  | nil => rfl
  | cons d rest ih =>
    have h1 : d.registered = true := hall d (List.mem_cons_self d rest)
    have h2 : d.deviceName ≠ name := hne d (List.mem_cons_self d rest)
    simp only [registerDevice]
    rw [if_neg (by simp [h1, h2])]
    rw [ih (fun x hx => hall x (List.mem_cons_of_mem d hx))
           (fun x hx => hne x (List.mem_cons_of_mem d hx))]

theorem registerDevice_match (devices : List TallyDevice) (cid : Nat)
    (name : List Char) (now : Nat)
    (hall : ∀ d ∈ devices, d.registered = true)
    (hdist : (devices.map TallyDevice.deviceName).Nodup)
    (i : Nat) (hi : i < devices.length)
    (hname : (devices.get ⟨i, hi⟩).deviceName = name) :
    registerDevice devices cid name now
      = devices.set i { devices.get ⟨i, hi⟩ with
          deviceName := name, cameraId := cid, lastSeen := now,
          connected := true, registered := true, hasCharacteristic := true } := by
  induction devices generalizing i with
  | nil => cases hi
  | cons d rest ih =>
    cases i with
    | zero =>
      have hd : d.deviceName = name := hname
      simp only [registerDevice]
      rw [if_pos (by simp [hd])]
      rfl
    | succ j =>
      have hj : j < rest.length := Nat.lt_of_succ_lt_succ hi
      have hnamej : (rest.get ⟨j, hj⟩).deviceName = name := hname
      have hmem : name ∈ rest.map TallyDevice.deviceName := by
        rw [← hnamej]
        exact List.mem_map_of_mem TallyDevice.deviceName (rest.get_mem j hj)
      have hd_ne : d.deviceName ≠ name := by
        intro he
        have hnotin : d.deviceName ∉ rest.map TallyDevice.deviceName :=
          (List.nodup_cons.mp hdist).1
        rw [he] at hnotin
        exact hnotin hmem
      have h1 : d.registered = true := hall d (List.mem_cons_self d rest)
      simp only [registerDevice]
      rw [if_neg (by simp [h1, hd_ne])]
      rw [ih (fun x hx => hall x (List.mem_cons_of_mem d hx))
             (List.nodup_cons.mp hdist).2 j hj hnamej]
      rfl

/-- Claim C8: with every slot registered under pairwise-distinct identities
(registry full), a registration carrying an unknown identity is rejected with
the whole registry unchanged, and a registration carrying a stored identity
with a (possibly different) camera id updates exactly that identity's slot in
place, claiming no second slot. -/
theorem registry_full_registration (devices : List TallyDevice) (cid : Nat)
    (name : List Char) (now : Nat)
    (hall : ∀ d ∈ devices, d.registered = true)
    (hdist : (devices.map TallyDevice.deviceName).Nodup) :
    ((∀ d ∈ devices, d.deviceName ≠ name) → registerDevice devices cid name now = devices)
    ∧ (∀ i (hi : i < devices.length), (devices.get ⟨i, hi⟩).deviceName = name →
        registerDevice devices cid name now
          = devices.set i { devices.get ⟨i, hi⟩ with
              deviceName := name, cameraId := cid, lastSeen := now,
              connected := true, registered := true, hasCharacteristic := true }) :=
  ⟨fun hne => registerDevice_no_match devices cid name now hall hne,
   fun i hi hname => registerDevice_match devices cid name now hall hdist i hi hname⟩

/-- Witness for claim C8 on the full four-slot registry: identity E (unknown)
is rejected, identity B (stored in slot 1) is updated in place. -/
theorem registry_full_registration_witness :
    (((∀ d ∈ exFullRegistry, d.deviceName ≠ ['E']) →
        registerDevice exFullRegistry 7 ['E'] 99 = exFullRegistry)
      ∧ (∀ i (hi : i < exFullRegistry.length),
          (exFullRegistry.get ⟨i, hi⟩).deviceName = ['E'] →
          registerDevice exFullRegistry 7 ['E'] 99
            = exFullRegistry.set i { exFullRegistry.get ⟨i, hi⟩ with
                deviceName := ['E'], cameraId := 7, lastSeen := 99,
                connected := true, registered := true, hasCharacteristic := true }))
    ∧ (((∀ d ∈ exFullRegistry, d.deviceName ≠ ['B']) →
        registerDevice exFullRegistry 7 ['B'] 99 = exFullRegistry)
      ∧ (∀ i (hi : i < exFullRegistry.length),
          (exFullRegistry.get ⟨i, hi⟩).deviceName = ['B'] →
          registerDevice exFullRegistry 7 ['B'] 99
            = exFullRegistry.set i { exFullRegistry.get ⟨i, hi⟩ with
                deviceName := ['B'], cameraId := 7, lastSeen := 99,
                connected := true, registered := true, hasCharacteristic := true })) :=
  ⟨registry_full_registration exFullRegistry 7 ['E'] 99 (by decide) (by decide),
   registry_full_registration exFullRegistry 7 ['B'] 99 (by decide) (by decide)⟩

theorem foldlXor_cons (x : Nat) (xs : List Nat) (a : Nat) :
    foldlXor a (x :: xs) = foldlXor (a ^^^ x) xs := rfl

theorem getD_append_add (l r : List Nat) (j d : Nat) :
    (l ++ r).getD (l.length + j) d = r.getD j d := by
  induction l with
  | nil => simp
  | cons a as ih =>
    have he : (a :: as).length + j = (as.length + j) + 1 := by
      simp only [List.length_cons]
      omega
    rw [he, List.cons_append, List.getD_cons_succ]
    exact ih

theorem getD_append_small (l r : List Nat) (i d : Nat) (h : i < l.length) :
    (l ++ r).getD i d = l.getD i d := by
  induction l generalizing i with
  | nil => cases h
  | cons a as ih =>
    cases i with
    | zero => rfl
    | succ j =>
      rw [List.cons_append, List.getD_cons_succ, List.getD_cons_succ]
      exact ih j (Nat.lt_of_succ_lt_succ h)

theorem set_append_add (l r : List Nat) (j v : Nat) :
    (l ++ r).set (l.length + j) v = l ++ r.set j v := by
  induction l with
  | nil => simp
  | cons a as ih =>
    have he : (a :: as).length + j = (as.length + j) + 1 := by
      simp only [List.length_cons]
      omega
    rw [he, List.cons_append, List.set_cons_succ, ih, List.cons_append]

theorem set_append_small (l r : List Nat) (i v : Nat) (h : i < l.length) :
    (l ++ r).set i v = l.set i v ++ r := by
  induction l generalizing i with
  | nil => cases h
  | cons a as ih =>
    cases i with
    | zero => rfl
    | succ j =>
      rw [List.cons_append, List.set_cons_succ, List.set_cons_succ,
          ih j (Nat.lt_of_succ_lt_succ h), List.cons_append]

theorem getD_set_same (l : List Nat) (i v d : Nat) (h : i < l.length) :
    (l.set i v).getD i d = v := by
  induction l generalizing i with
  | nil => cases h
  | cons a as ih =>
    cases i with
    | zero => rfl
    | succ j =>
      rw [List.set_cons_succ, List.getD_cons_succ]
      exact ih j (Nat.lt_of_succ_lt_succ h)

theorem getD_replicate_zero (n i : Nat) : (List.replicate n 0).getD i 0 = 0 := by
  induction n generalizing i with
  | zero => rfl
  | succ m ih =>
    cases i with
    | zero => rfl
    | succ j =>
      rw [List.replicate_succ, List.getD_cons_succ]
      exact ih j

theorem strlenState_append_zero (l r : List Nat) (h : ∀ x ∈ l, x ≠ 0) :
    strlenState (l ++ 0 :: r) = l := by
  unfold strlenState
  rw [List.takeWhile_append_of_pos (by intro a ha; simpa using h a ha)]
  simp

theorem foldlXor_shift (l : List Nat) (a d : Nat) :
    foldlXor (a ^^^ d) l = foldlXor a l ^^^ d := by
  induction l generalizing a with
  | nil => rfl
  | cons x xs ih =>
    simp only [foldlXor, List.foldl_cons]
    have he : a ^^^ d ^^^ x = a ^^^ x ^^^ d := by
      rw [Nat.xor_assoc, Nat.xor_assoc, Nat.xor_comm d x]
    rw [he]
    exact ih (a ^^^ x)

theorem foldlXor_replicate_zero (n : Nat) (a : Nat) :
    foldlXor a (List.replicate n 0) = a := by
  induction n generalizing a with
  | zero => rfl
  | succ m ih =>
    simp only [List.replicate_succ, foldlXor, List.foldl_cons, Nat.xor_zero]
    exact ih a

theorem foldlXor_append (l r : List Nat) (a : Nat) :
    foldlXor a (l ++ r) = foldlXor (foldlXor a l) r := by
  simp [foldlXor, List.foldl_append]

theorem foldlXor_set (l : List Nat) (i v a : Nat) (h : i < l.length) :
    foldlXor a (l.set i v) = foldlXor a l ^^^ l.getD i 0 ^^^ v := by
  induction l generalizing i a with
  | nil => cases h
  | cons x xs ih =>
    cases i with
    | zero =>
      simp only [List.set_cons_zero, foldlXor_cons, List.getD_cons_zero]
      have h1 : a ^^^ v = (a ^^^ x) ^^^ (x ^^^ v) := by
        rw [← Nat.xor_assoc, Nat.xor_assoc a x x, Nat.xor_self, Nat.xor_zero]
      rw [h1, foldlXor_shift xs (a ^^^ x) (x ^^^ v), ← Nat.xor_assoc]
    | succ j =>
      simp only [List.set_cons_succ, foldlXor_cons, List.getD_cons_succ]
      exact ih j (a ^^^ x) (Nat.lt_of_succ_lt_succ h)

theorem xor_two_pow_ne (x k : Nat) : x ^^^ 2 ^ k ≠ x := by
  intro h
  have h2 : x ^^^ (x ^^^ 2 ^ k) = x ^^^ x := by rw [h]
  rw [← Nat.xor_assoc, Nat.xor_self, Nat.zero_xor] at h2
  exact (Nat.two_pow_pos k).ne' h2

theorem strncpyState_eq (st : List Nat) (hlen : st.length ≤ 11) :
    strncpyState st = st ++ List.replicate (12 - st.length) 0 := by
  show st.take 11 ++ List.replicate (12 - (st.take 11).length) 0 = _
  rw [List.take_of_length_le hlen]

theorem strncpyState_length (st : List Nat) (hlen : st.length ≤ 11) :
    (strncpyState st).length = 12 := by
  rw [strncpyState_eq st hlen]
  simp only [List.length_append, List.length_replicate]
  omega

theorem strlenState_strncpy (st : List Nat) (hlen : st.length ≤ 11)
    (hnz : ∀ x ∈ st, x ≠ 0) : strlenState (strncpyState st) = st := by
  rw [strncpyState_eq st hlen]
  have h12 : 12 - st.length = (11 - st.length) + 1 := by omega
  rw [h12, List.replicate_succ]
  exact strlenState_append_zero st _ hnz

theorem calculateChecksum_checksum_irrel (msg : TallyMessage) (n : Nat) :
    calculateChecksum { msg with checksum := n } = calculateChecksum msg := rfl

theorem verifyMessage_eq (msg : TallyMessage) :
    verifyMessage msg = (msg.checksum == calculateChecksum msg) := by
  unfold verifyMessage
  rw [calculateChecksum_checksum_irrel]

theorem mkTallyMessage_checksum (c : Nat) (st : List Nat) (ts b s : Nat)
    (hlen : st.length ≤ 11) (hnz : ∀ x ∈ st, x ≠ 0) :
    (mkTallyMessage c st ts b s).checksum = foldlXor ((c ^^^ b) ^^^ s) st := by
  show foldlXor ((c ^^^ b) ^^^ s) (strlenState (strncpyState st)) = _
  rw [strlenState_strncpy st hlen hnz]

theorem getD_cons_append (c : Nat) (st tail : List Nat) (d : Nat)
    (hlen : st.length = 12) (p j : Nat) (hp : p = 13 + j) :
    (c :: (st ++ tail)).getD p d = tail.getD j d := by
  subst hp
  have he : 13 + j = (st.length + j) + 1 := by omega
  rw [he, List.getD_cons_succ, getD_append_add]

theorem decodeTally_serializeTally (m : TallyMessage)
    (hlen : m.state.length = 12) (hts : m.timestamp < 4294967296) :
    decodeTally (serializeTally m) = some m := by
  obtain ⟨c, st, ts, b, s, chk⟩ := m
  have hlen2 : st.length = 12 := hlen
  have hts2 : ts < 4294967296 := hts
  unfold serializeTally decodeTally
  rw [if_pos (by simp [toLE4, hlen2])]
  simp only [Option.some.injEq, TallyMessage.mk.injEq]
  refine ⟨rfl, ?_, ?_, ?_, ?_, ?_⟩
  · show (st ++ (toLE4 ts ++ [b, s, chk])).take 12 = st
    exact List.take_left' hlen2
  · rw [getD_cons_append c st _ 0 hlen2 13 0 rfl, getD_cons_append c st _ 0 hlen2 14 1 rfl,
        getD_cons_append c st _ 0 hlen2 15 2 rfl, getD_cons_append c st _ 0 hlen2 16 3 rfl]
    show fromLE4 (ts % 256) (ts / 256 % 256) (ts / 65536 % 256) (ts / 16777216 % 256) = ts
    unfold fromLE4
    omega
  · rw [getD_cons_append c st _ 0 hlen2 17 4 rfl]
    rfl
  · rw [getD_cons_append c st _ 0 hlen2 18 5 rfl]
    rfl
  · rw [getD_cons_append c st _ 0 hlen2 19 6 rfl]
    rfl

/-- Claim C5: for every valid field combination (in-range bytes, a NUL-free
state string of at most 11 bytes, a u32 timestamp), decoding the serialized
encoded message returns the encoded message itself, the receiver's
verification accepts it, and the stored checksum equals the XOR-fold of
cameraId, bridgeId, sourceStatus and every byte of the 12-byte state buffer
(the checksum field itself contributing as zero). -/
theorem codec_roundtrip_checksum (c ts b s : Nat) (st : List Nat)
    (hc : c < 256) (hb : b < 256) (hs : s < 256) (hts : ts < 4294967296)
    (hnz : ∀ x ∈ st, x ≠ 0) (hlen : st.length ≤ 11) :
    decodeTally (serializeTally (mkTallyMessage c st ts b s))
        = some (mkTallyMessage c st ts b s)
      ∧ verifyMessage (mkTallyMessage c st ts b s) = true
      ∧ (mkTallyMessage c st ts b s).checksum
          = foldlXor 0 ([c, b, s] ++ (mkTallyMessage c st ts b s).state) := by
  refine ⟨?_, ?_, ?_⟩
  · exact decodeTally_serializeTally _ (strncpyState_length st hlen) hts
  · rw [verifyMessage_eq]
    exact beq_self_eq_true _
  · rw [mkTallyMessage_checksum c st ts b s hlen hnz]
    show _ = foldlXor 0 ([c, b, s] ++ strncpyState st)
    rw [foldlXor_append, strncpyState_eq st hlen, foldlXor_append, foldlXor_replicate_zero]
    show foldlXor ((c ^^^ b) ^^^ s) st = foldlXor (((0 ^^^ c) ^^^ b) ^^^ s) st
    rw [Nat.zero_xor]

/-- Witness for claim C5 at a concrete PROGRAM message. -/
theorem codec_roundtrip_checksum_witness :
    decodeTally (serializeTally (mkTallyMessage 1 progBytes 12345 1 1))
        = some (mkTallyMessage 1 progBytes 12345 1 1)
      ∧ verifyMessage (mkTallyMessage 1 progBytes 12345 1 1) = true
      ∧ (mkTallyMessage 1 progBytes 12345 1 1).checksum
          = foldlXor 0 ([1, 1, 1] ++ (mkTallyMessage 1 progBytes 12345 1 1).state) :=
  codec_roundtrip_checksum 1 12345 1 1 progBytes (by decide) (by decide) (by decide)
    (by decide) (by decide) (by decide)

theorem set_cons_append (c : Nat) (st tail : List Nat) (v : Nat)
    (hlen : st.length = 12) (p j : Nat) (hp : p = 13 + j) :
    (c :: (st ++ tail)).set p v = c :: (st ++ tail.set j v) := by
  subst hp
  have he : 13 + j = (st.length + j) + 1 := by omega
  rw [he, List.set_cons_succ, set_append_add]

theorem flipBit_serialize_zero (m : TallyMessage) (k : Nat) :
    flipBit (serializeTally m) 0 k
      = serializeTally { m with cameraId := m.cameraId ^^^ 2 ^ k } := rfl

theorem flipBit_serialize_tail (m : TallyMessage) (hlen : m.state.length = 12)
    (p j k : Nat) (hp : p = 13 + j) :
    flipBit (serializeTally m) p k
      = m.cameraId :: (m.state
          ++ (toLE4 m.timestamp ++ [m.bridgeId, m.bridgeStatus, m.checksum]).set j
              (((toLE4 m.timestamp ++ [m.bridgeId, m.bridgeStatus, m.checksum]).getD j 0)
                ^^^ 2 ^ k)) := by
  unfold flipBit serializeTally
  rw [getD_cons_append _ _ _ _ hlen p j hp, set_cons_append _ _ _ _ hlen p j hp]

theorem flipBit_serialize_state (m : TallyMessage) (hlen : m.state.length = 12)
    (i k : Nat) (hi : i < 12) :
    flipBit (serializeTally m) (i + 1) k
      = m.cameraId :: ((m.state.set i (m.state.getD i 0 ^^^ 2 ^ k))
          ++ (toLE4 m.timestamp ++ [m.bridgeId, m.bridgeStatus, m.checksum])) := by
  unfold flipBit serializeTally
  rw [List.getD_cons_succ, List.set_cons_succ,
      getD_append_small _ _ i _ (by omega), set_append_small _ _ i _ (by omega)]

theorem toLE4_fromLE4 (b0 b1 b2 b3 : Nat)
    (h0 : b0 < 256) (h1 : b1 < 256) (h2 : b2 < 256) (h3 : b3 < 256) :
    toLE4 (fromLE4 b0 b1 b2 b3) = [b0, b1, b2, b3] := by
  unfold toLE4 fromLE4
  simp only [List.cons.injEq, and_true]
  refine ⟨?_, ?_, ?_, ?_⟩ <;> omega

/-- Claim C6 (counterexample): flipping bit 0 of byte 13 — the timestamp's
least-significant byte — of a validly encoded message produces a block that
still decodes and still passes `verifyMessage`, while the decoded message
differs from the original: the checksum does not cover the timestamp. -/
theorem timestamp_flip_undetected :
    (decodeTally (flipBit (serializeTally (mkTallyMessage 1 progBytes 12345 1 1)) 13 0)).map
        verifyMessage = some true
      ∧ decodeTally (flipBit (serializeTally (mkTallyMessage 1 progBytes 12345 1 1)) 13 0)
          ≠ some (mkTallyMessage 1 progBytes 12345 1 1) := by decide

theorem verifyMessage_false_of_ne (msg : TallyMessage)
    (h : msg.checksum ≠ calculateChecksum msg) : verifyMessage msg = false := by
  rw [verifyMessage_eq]
  exact beq_eq_false_iff_ne.mpr h

theorem verifyMessage_true_of_eq (msg : TallyMessage)
    (h : msg.checksum = calculateChecksum msg) : verifyMessage msg = true := by
  rw [verifyMessage_eq, h]
  exact beq_self_eq_true _

theorem xor_rot (a g d : Nat) : (a ^^^ g) ^^^ (g ^^^ d) = a ^^^ d := by
  rw [← Nat.xor_assoc, Nat.xor_assoc a g g, Nat.xor_self, Nat.xor_zero]

theorem xor_base_left (c b s d : Nat) :
    ((c ^^^ d) ^^^ b) ^^^ s = ((c ^^^ b) ^^^ s) ^^^ d := by
  rw [Nat.xor_assoc c d b, Nat.xor_comm d b, ← Nat.xor_assoc c b d,
      Nat.xor_assoc (c ^^^ b) d s, Nat.xor_comm d s, ← Nat.xor_assoc]

theorem xor_base_mid (c b s d : Nat) :
    (c ^^^ (b ^^^ d)) ^^^ s = ((c ^^^ b) ^^^ s) ^^^ d := by
  rw [← Nat.xor_assoc c b d, Nat.xor_assoc (c ^^^ b) d s, Nat.xor_comm d s,
      ← Nat.xor_assoc]

theorem xor_base_right (c b s d : Nat) :
    (c ^^^ b) ^^^ (s ^^^ d) = ((c ^^^ b) ^^^ s) ^^^ d := by
  rw [← Nat.xor_assoc]

theorem xor_byte_lt (x k : Nat) (hx : x < 256) (hk : k < 8) : x ^^^ 2 ^ k < 256 := by
  have h2 : 2 ^ k < 256 := by
    have hle : 2 ^ k ≤ 2 ^ 7 := Nat.pow_le_pow_right (by decide) (by omega)
    omega
  have h256 : (256 : Nat) = 2 ^ 8 := by decide
  rw [h256] at hx h2 ⊢
  exact Nat.xor_lt_two_pow hx h2

theorem flip_cameraId_detected (c ts b s k : Nat) (st : List Nat)
    (hts : ts < 4294967296) (hnz : ∀ x ∈ st, x ≠ 0) (hlen : st.length ≤ 11) :
    (decodeTally (flipBit (serializeTally (mkTallyMessage c st ts b s)) 0 k)).map
        verifyMessage = some false := by
  rw [flipBit_serialize_zero,
      decodeTally_serializeTally _ (strncpyState_length st hlen) hts, Option.map_some']
  have hver : verifyMessage { mkTallyMessage c st ts b s with
      cameraId := (mkTallyMessage c st ts b s).cameraId ^^^ 2 ^ k } = false := by
    apply verifyMessage_false_of_ne
    show foldlXor ((c ^^^ b) ^^^ s) (strlenState (strncpyState st))
        ≠ foldlXor (((c ^^^ 2 ^ k) ^^^ b) ^^^ s) (strlenState (strncpyState st))
    rw [strlenState_strncpy st hlen hnz, xor_base_left, foldlXor_shift st ((c ^^^ b) ^^^ s) (2 ^ k)]
    exact (xor_two_pow_ne _ k).symm
  rw [hver]

theorem flip_bridgeId_detected (c ts b s k : Nat) (st : List Nat)
    (hts : ts < 4294967296) (hnz : ∀ x ∈ st, x ≠ 0) (hlen : st.length ≤ 11) :
    (decodeTally (flipBit (serializeTally (mkTallyMessage c st ts b s)) 17 k)).map
        verifyMessage = some false := by
  have hlen12 : (mkTallyMessage c st ts b s).state.length = 12 := strncpyState_length st hlen
  have eflip : flipBit (serializeTally (mkTallyMessage c st ts b s)) 17 k
      = serializeTally { mkTallyMessage c st ts b s with
          bridgeId := (mkTallyMessage c st ts b s).bridgeId ^^^ 2 ^ k } := by
    rw [flipBit_serialize_tail _ hlen12 17 4 k rfl]
    rfl
  rw [eflip, decodeTally_serializeTally _ (strncpyState_length st hlen) hts, Option.map_some']
  have hver : verifyMessage { mkTallyMessage c st ts b s with
      bridgeId := (mkTallyMessage c st ts b s).bridgeId ^^^ 2 ^ k } = false := by
    apply verifyMessage_false_of_ne
    show foldlXor ((c ^^^ b) ^^^ s) (strlenState (strncpyState st))
        ≠ foldlXor ((c ^^^ (b ^^^ 2 ^ k)) ^^^ s) (strlenState (strncpyState st))
    rw [strlenState_strncpy st hlen hnz, xor_base_mid, foldlXor_shift st ((c ^^^ b) ^^^ s) (2 ^ k)]
    exact (xor_two_pow_ne _ k).symm
  rw [hver]

theorem flip_bridgeStatus_detected (c ts b s k : Nat) (st : List Nat)
    (hts : ts < 4294967296) (hnz : ∀ x ∈ st, x ≠ 0) (hlen : st.length ≤ 11) :
    (decodeTally (flipBit (serializeTally (mkTallyMessage c st ts b s)) 18 k)).map
        verifyMessage = some false := by
  have hlen12 : (mkTallyMessage c st ts b s).state.length = 12 := strncpyState_length st hlen
  have eflip : flipBit (serializeTally (mkTallyMessage c st ts b s)) 18 k
      = serializeTally { mkTallyMessage c st ts b s with
          bridgeStatus := (mkTallyMessage c st ts b s).bridgeStatus ^^^ 2 ^ k } := by
    rw [flipBit_serialize_tail _ hlen12 18 5 k rfl]
    rfl
  rw [eflip, decodeTally_serializeTally _ (strncpyState_length st hlen) hts, Option.map_some']
  have hver : verifyMessage { mkTallyMessage c st ts b s with
      bridgeStatus := (mkTallyMessage c st ts b s).bridgeStatus ^^^ 2 ^ k } = false := by
    apply verifyMessage_false_of_ne
    show foldlXor ((c ^^^ b) ^^^ s) (strlenState (strncpyState st))
        ≠ foldlXor ((c ^^^ b) ^^^ (s ^^^ 2 ^ k)) (strlenState (strncpyState st))
    rw [strlenState_strncpy st hlen hnz, xor_base_right, foldlXor_shift st ((c ^^^ b) ^^^ s) (2 ^ k)]
    exact (xor_two_pow_ne _ k).symm
  rw [hver]

theorem flip_checksum_detected (c ts b s k : Nat) (st : List Nat)
    (hts : ts < 4294967296) (hnz : ∀ x ∈ st, x ≠ 0) (hlen : st.length ≤ 11) :
    (decodeTally (flipBit (serializeTally (mkTallyMessage c st ts b s)) 19 k)).map
        verifyMessage = some false := by
  have hlen12 : (mkTallyMessage c st ts b s).state.length = 12 := strncpyState_length st hlen
  have eflip : flipBit (serializeTally (mkTallyMessage c st ts b s)) 19 k
      = serializeTally { mkTallyMessage c st ts b s with
          checksum := (mkTallyMessage c st ts b s).checksum ^^^ 2 ^ k } := by
    rw [flipBit_serialize_tail _ hlen12 19 6 k rfl]
    rfl
  rw [eflip, decodeTally_serializeTally _ (strncpyState_length st hlen) hts, Option.map_some']
  have hver : verifyMessage { mkTallyMessage c st ts b s with
      checksum := (mkTallyMessage c st ts b s).checksum ^^^ 2 ^ k } = false := by
    apply verifyMessage_false_of_ne
    show foldlXor ((c ^^^ b) ^^^ s) (strlenState (strncpyState st)) ^^^ 2 ^ k
        ≠ foldlXor ((c ^^^ b) ^^^ s) (strlenState (strncpyState st))
    exact xor_two_pow_ne _ k
  rw [hver]

theorem flip_state_detected (c ts b s k i : Nat) (st : List Nat)
    (hts : ts < 4294967296) (hnz : ∀ x ∈ st, x ≠ 0) (hlen : st.length ≤ 11)
    (hi : i < st.length) (hv : st.getD i 0 ^^^ 2 ^ k ≠ 0) :
    (decodeTally (flipBit (serializeTally (mkTallyMessage c st ts b s)) (i + 1) k)).map
        verifyMessage = some false := by
  have hlen12 : (mkTallyMessage c st ts b s).state.length = 12 := strncpyState_length st hlen
  have egetD : (strncpyState st).getD i 0 = st.getD i 0 := by
    rw [strncpyState_eq st hlen]
    exact getD_append_small _ _ i 0 hi
  have eset : (strncpyState st).set i ((strncpyState st).getD i 0 ^^^ 2 ^ k)
      = st.set i (st.getD i 0 ^^^ 2 ^ k) ++ List.replicate (12 - st.length) 0 := by
    rw [egetD, strncpyState_eq st hlen]
    exact set_append_small _ _ i _ hi
  have eflip : flipBit (serializeTally (mkTallyMessage c st ts b s)) (i + 1) k
      = serializeTally { mkTallyMessage c st ts b s with
          state := st.set i (st.getD i 0 ^^^ 2 ^ k) ++ List.replicate (12 - st.length) 0 } := by
    rw [flipBit_serialize_state _ hlen12 i k (by omega)]
    show (mkTallyMessage c st ts b s).cameraId
        :: ((strncpyState st).set i ((strncpyState st).getD i 0 ^^^ 2 ^ k)
          ++ (toLE4 ts ++ [b, s, (mkTallyMessage c st ts b s).checksum])) = _
    rw [eset]
    rfl
  have hlen2 : (st.set i (st.getD i 0 ^^^ 2 ^ k) ++ List.replicate (12 - st.length) 0).length
      = 12 := by
    simp only [List.length_append, List.length_set, List.length_replicate]
    omega
  rw [eflip, decodeTally_serializeTally _ hlen2 hts, Option.map_some']
  have hnz2 : ∀ x ∈ st.set i (st.getD i 0 ^^^ 2 ^ k), x ≠ 0 := by
    intro x hx
    rcases List.mem_or_eq_of_mem_set hx with hmem | heq
    · exact hnz x hmem
    · rw [heq]
      exact hv
  have hstrlen : strlenState (st.set i (st.getD i 0 ^^^ 2 ^ k)
        ++ List.replicate (12 - st.length) 0)
      = st.set i (st.getD i 0 ^^^ 2 ^ k) := by
    have h12 : 12 - st.length = (11 - st.length) + 1 := by omega
    rw [h12, List.replicate_succ]
    exact strlenState_append_zero _ _ hnz2
  have hver : verifyMessage { mkTallyMessage c st ts b s with
      state := st.set i (st.getD i 0 ^^^ 2 ^ k) ++ List.replicate (12 - st.length) 0 }
        = false := by
    apply verifyMessage_false_of_ne
    show foldlXor ((c ^^^ b) ^^^ s) (strlenState (strncpyState st))
        ≠ foldlXor ((c ^^^ b) ^^^ s) (strlenState (st.set i (st.getD i 0 ^^^ 2 ^ k)
            ++ List.replicate (12 - st.length) 0))
    rw [strlenState_strncpy st hlen hnz, hstrlen, foldlXor_set st i _ _ hi, xor_rot]
    exact (xor_two_pow_ne _ k).symm
  rw [hver]

theorem flip_timestamp_undetected (c ts b s k j : Nat) (st : List Nat)
    (hts : ts < 4294967296) (hnz : ∀ x ∈ st, x ≠ 0) (hlen : st.length ≤ 11)
    (hk : k < 8) (hj : j < 4) :
    (decodeTally (flipBit (serializeTally (mkTallyMessage c st ts b s)) (13 + j) k)).map
        verifyMessage = some true
      ∧ decodeTally (flipBit (serializeTally (mkTallyMessage c st ts b s)) (13 + j) k)
          ≠ some (mkTallyMessage c st ts b s) := by
  have hlen12 : (mkTallyMessage c st ts b s).state.length = 12 := strncpyState_length st hlen
  have h0 : ts % 256 < 256 := Nat.mod_lt _ (by decide)
  have h1 : ts / 256 % 256 < 256 := Nat.mod_lt _ (by decide)
  have h2 : ts / 65536 % 256 < 256 := Nat.mod_lt _ (by decide)
  have h3 : ts / 16777216 % 256 < 256 := Nat.mod_lt _ (by decide)
  interval_cases j
  · have hv : ts % 256 ^^^ 2 ^ k < 256 := xor_byte_lt _ k h0 hk
    have eflip : flipBit (serializeTally (mkTallyMessage c st ts b s)) (13 + 0) k
        = serializeTally { mkTallyMessage c st ts b s with
            timestamp := fromLE4 (ts % 256 ^^^ 2 ^ k) (ts / 256 % 256) (ts / 65536 % 256)
              (ts / 16777216 % 256) } := by
      rw [flipBit_serialize_tail _ hlen12 (13 + 0) 0 k rfl]
      show (mkTallyMessage c st ts b s).cameraId
          :: ((mkTallyMessage c st ts b s).state
            ++ (toLE4 ts ++ [b, s, (mkTallyMessage c st ts b s).checksum]).set 0
                (ts % 256 ^^^ 2 ^ k)) = _
      have etl : (toLE4 ts ++ [b, s, (mkTallyMessage c st ts b s).checksum]).set 0
            (ts % 256 ^^^ 2 ^ k)
          = toLE4 (fromLE4 (ts % 256 ^^^ 2 ^ k) (ts / 256 % 256) (ts / 65536 % 256)
              (ts / 16777216 % 256)) ++ [b, s, (mkTallyMessage c st ts b s).checksum] := by
        rw [toLE4_fromLE4 _ _ _ _ hv h1 h2 h3]
        rfl
      rw [etl]
      rfl
    have hts2 : fromLE4 (ts % 256 ^^^ 2 ^ k) (ts / 256 % 256) (ts / 65536 % 256)
        (ts / 16777216 % 256) < 4294967296 := by
      unfold fromLE4
      omega
    rw [eflip, decodeTally_serializeTally _ (strncpyState_length st hlen) hts2,
        Option.map_some']
    constructor
    · rw [verifyMessage_true_of_eq _ rfl]
    · intro heq
      have hts_eq : fromLE4 (ts % 256 ^^^ 2 ^ k) (ts / 256 % 256) (ts / 65536 % 256)
          (ts / 16777216 % 256) = ts := congrArg TallyMessage.timestamp (Option.some.inj heq)
      unfold fromLE4 at hts_eq
      have hcontra : ts % 256 ^^^ 2 ^ k = ts % 256 := by omega
      exact xor_two_pow_ne _ k hcontra
  · have hv : ts / 256 % 256 ^^^ 2 ^ k < 256 := xor_byte_lt _ k h1 hk
    have eflip : flipBit (serializeTally (mkTallyMessage c st ts b s)) (13 + 1) k
        = serializeTally { mkTallyMessage c st ts b s with
            timestamp := fromLE4 (ts % 256) (ts / 256 % 256 ^^^ 2 ^ k) (ts / 65536 % 256)
              (ts / 16777216 % 256) } := by
      rw [flipBit_serialize_tail _ hlen12 (13 + 1) 1 k rfl]
      show (mkTallyMessage c st ts b s).cameraId
          :: ((mkTallyMessage c st ts b s).state
            ++ (toLE4 ts ++ [b, s, (mkTallyMessage c st ts b s).checksum]).set 1
                (ts / 256 % 256 ^^^ 2 ^ k)) = _
      have etl : (toLE4 ts ++ [b, s, (mkTallyMessage c st ts b s).checksum]).set 1
            (ts / 256 % 256 ^^^ 2 ^ k)
          = toLE4 (fromLE4 (ts % 256) (ts / 256 % 256 ^^^ 2 ^ k) (ts / 65536 % 256)
              (ts / 16777216 % 256)) ++ [b, s, (mkTallyMessage c st ts b s).checksum] := by
        rw [toLE4_fromLE4 _ _ _ _ h0 hv h2 h3]
        rfl
      rw [etl]
      rfl
    have hts2 : fromLE4 (ts % 256) (ts / 256 % 256 ^^^ 2 ^ k) (ts / 65536 % 256)
        (ts / 16777216 % 256) < 4294967296 := by
      unfold fromLE4
      omega
    rw [eflip, decodeTally_serializeTally _ (strncpyState_length st hlen) hts2,
        Option.map_some']
    constructor
    · rw [verifyMessage_true_of_eq _ rfl]
    · intro heq
      have hts_eq : fromLE4 (ts % 256) (ts / 256 % 256 ^^^ 2 ^ k) (ts / 65536 % 256)
          (ts / 16777216 % 256) = ts := congrArg TallyMessage.timestamp (Option.some.inj heq)
      unfold fromLE4 at hts_eq
      have hcontra : ts / 256 % 256 ^^^ 2 ^ k = ts / 256 % 256 := by omega
      exact xor_two_pow_ne _ k hcontra
  · have hv : ts / 65536 % 256 ^^^ 2 ^ k < 256 := xor_byte_lt _ k h2 hk
    have eflip : flipBit (serializeTally (mkTallyMessage c st ts b s)) (13 + 2) k
        = serializeTally { mkTallyMessage c st ts b s with
            timestamp := fromLE4 (ts % 256) (ts / 256 % 256) (ts / 65536 % 256 ^^^ 2 ^ k)
              (ts / 16777216 % 256) } := by
      rw [flipBit_serialize_tail _ hlen12 (13 + 2) 2 k rfl]
      show (mkTallyMessage c st ts b s).cameraId
          :: ((mkTallyMessage c st ts b s).state
            ++ (toLE4 ts ++ [b, s, (mkTallyMessage c st ts b s).checksum]).set 2
                (ts / 65536 % 256 ^^^ 2 ^ k)) = _
      have etl : (toLE4 ts ++ [b, s, (mkTallyMessage c st ts b s).checksum]).set 2
            (ts / 65536 % 256 ^^^ 2 ^ k)
          = toLE4 (fromLE4 (ts % 256) (ts / 256 % 256) (ts / 65536 % 256 ^^^ 2 ^ k)
              (ts / 16777216 % 256)) ++ [b, s, (mkTallyMessage c st ts b s).checksum] := by
        rw [toLE4_fromLE4 _ _ _ _ h0 h1 hv h3]
        rfl
      rw [etl]
      rfl
    have hts2 : fromLE4 (ts % 256) (ts / 256 % 256) (ts / 65536 % 256 ^^^ 2 ^ k)
        (ts / 16777216 % 256) < 4294967296 := by
      unfold fromLE4
      omega
    rw [eflip, decodeTally_serializeTally _ (strncpyState_length st hlen) hts2,
        Option.map_some']
    constructor
    · rw [verifyMessage_true_of_eq _ rfl]
    · intro heq
      have hts_eq : fromLE4 (ts % 256) (ts / 256 % 256) (ts / 65536 % 256 ^^^ 2 ^ k)
          (ts / 16777216 % 256) = ts := congrArg TallyMessage.timestamp (Option.some.inj heq)
      unfold fromLE4 at hts_eq
      have hcontra : ts / 65536 % 256 ^^^ 2 ^ k = ts / 65536 % 256 := by omega
      exact xor_two_pow_ne _ k hcontra
  · have hv : ts / 16777216 % 256 ^^^ 2 ^ k < 256 := xor_byte_lt _ k h3 hk
    have eflip : flipBit (serializeTally (mkTallyMessage c st ts b s)) (13 + 3) k
        = serializeTally { mkTallyMessage c st ts b s with
            timestamp := fromLE4 (ts % 256) (ts / 256 % 256) (ts / 65536 % 256)
              (ts / 16777216 % 256 ^^^ 2 ^ k) } := by
      rw [flipBit_serialize_tail _ hlen12 (13 + 3) 3 k rfl]
      show (mkTallyMessage c st ts b s).cameraId
          :: ((mkTallyMessage c st ts b s).state
            ++ (toLE4 ts ++ [b, s, (mkTallyMessage c st ts b s).checksum]).set 3
                (ts / 16777216 % 256 ^^^ 2 ^ k)) = _
      have etl : (toLE4 ts ++ [b, s, (mkTallyMessage c st ts b s).checksum]).set 3
            (ts / 16777216 % 256 ^^^ 2 ^ k)
          = toLE4 (fromLE4 (ts % 256) (ts / 256 % 256) (ts / 65536 % 256)
              (ts / 16777216 % 256 ^^^ 2 ^ k)) ++ [b, s, (mkTallyMessage c st ts b s).checksum] := by
        rw [toLE4_fromLE4 _ _ _ _ h0 h1 h2 hv]
        rfl
      rw [etl]
      rfl
    have hts2 : fromLE4 (ts % 256) (ts / 256 % 256) (ts / 65536 % 256)
        (ts / 16777216 % 256 ^^^ 2 ^ k) < 4294967296 := by
      unfold fromLE4
      omega
    rw [eflip, decodeTally_serializeTally _ (strncpyState_length st hlen) hts2,
        Option.map_some']
    constructor
    · rw [verifyMessage_true_of_eq _ rfl]
    · intro heq
      have hts_eq : fromLE4 (ts % 256) (ts / 256 % 256) (ts / 65536 % 256)
          (ts / 16777216 % 256 ^^^ 2 ^ k) = ts := congrArg TallyMessage.timestamp (Option.some.inj heq)
      unfold fromLE4 at hts_eq
      have hcontra : ts / 16777216 % 256 ^^^ 2 ^ k = ts / 16777216 % 256 := by omega
      exact xor_two_pow_ne _ k hcontra

theorem flip_padding_undetected (c ts b s k i : Nat) (st : List Nat)
    (hts : ts < 4294967296) (hnz : ∀ x ∈ st, x ≠ 0) (hlen : st.length ≤ 11)
    (hi1 : st.length + 1 ≤ i) (hi2 : i ≤ 11) :
    (decodeTally (flipBit (serializeTally (mkTallyMessage c st ts b s)) (i + 1) k)).map
        verifyMessage = some true
      ∧ decodeTally (flipBit (serializeTally (mkTallyMessage c st ts b s)) (i + 1) k)
          ≠ some (mkTallyMessage c st ts b s) := by
  have hlen12 : (mkTallyMessage c st ts b s).state.length = 12 := strncpyState_length st hlen
  have hg : (strncpyState st).getD i 0 = 0 := by
    rw [strncpyState_eq st hlen]
    have hi3 : i = st.length + (i - st.length) := by omega
    rw [hi3, getD_append_add]
    exact getD_replicate_zero _ _
  have eset : (strncpyState st).set i ((strncpyState st).getD i 0 ^^^ 2 ^ k)
      = st ++ (List.replicate (12 - st.length) 0).set (i - st.length) (2 ^ k) := by
    rw [hg, Nat.zero_xor, strncpyState_eq st hlen]
    have hi3 : i = st.length + (i - st.length) := by omega
    rw [hi3, set_append_add, Nat.add_sub_cancel_left]
  have eflip : flipBit (serializeTally (mkTallyMessage c st ts b s)) (i + 1) k
      = serializeTally { mkTallyMessage c st ts b s with
          state := st ++ (List.replicate (12 - st.length) 0).set (i - st.length) (2 ^ k) } := by
    rw [flipBit_serialize_state _ hlen12 i k (by omega)]
    show (mkTallyMessage c st ts b s).cameraId
        :: ((strncpyState st).set i ((strncpyState st).getD i 0 ^^^ 2 ^ k)
          ++ (toLE4 ts ++ [b, s, (mkTallyMessage c st ts b s).checksum])) = _
    rw [eset]
    rfl
  have hlen2 : (st ++ (List.replicate (12 - st.length) 0).set (i - st.length) (2 ^ k)).length
      = 12 := by
    simp only [List.length_append, List.length_set, List.length_replicate]
    omega
  rw [eflip, decodeTally_serializeTally _ hlen2 hts, Option.map_some']
  have ezeros : (List.replicate (12 - st.length) 0).set (i - st.length) (2 ^ k)
      = 0 :: (List.replicate (11 - st.length) 0).set (i - st.length - 1) (2 ^ k) := by
    have h12 : 12 - st.length = (11 - st.length) + 1 := by omega
    have hidx : i - st.length = (i - st.length - 1) + 1 := by omega
    rw [h12, List.replicate_succ, hidx, List.set_cons_succ]
    have hidx2 : i - st.length - 1 + 1 - 1 = i - st.length - 1 := by omega
    rw [hidx2]
  constructor
  · have hstrlen : strlenState (st
          ++ (List.replicate (12 - st.length) 0).set (i - st.length) (2 ^ k)) = st := by
      rw [ezeros]
      exact strlenState_append_zero _ _ hnz
    have hver : verifyMessage { mkTallyMessage c st ts b s with
        state := st ++ (List.replicate (12 - st.length) 0).set (i - st.length) (2 ^ k) }
          = true := by
      apply verifyMessage_true_of_eq
      show foldlXor ((c ^^^ b) ^^^ s) (strlenState (strncpyState st))
          = foldlXor ((c ^^^ b) ^^^ s) (strlenState (st
              ++ (List.replicate (12 - st.length) 0).set (i - st.length) (2 ^ k)))
      rw [strlenState_strncpy st hlen hnz, hstrlen]
    rw [hver]
  · intro heq
    have hstate : st ++ (List.replicate (12 - st.length) 0).set (i - st.length) (2 ^ k)
        = strncpyState st := congrArg TallyMessage.state (Option.some.inj heq)
    have hgetD : (st ++ (List.replicate (12 - st.length) 0).set (i - st.length) (2 ^ k)).getD
        i 0 = 2 ^ k := by
      have hi3 : i = st.length + (i - st.length) := by omega
      have hb2 : i - st.length < (List.replicate (12 - st.length) (0 : Nat)).length := by
        rw [List.length_replicate]
        omega
      rw [hi3, getD_append_add, Nat.add_sub_cancel_left]
      exact getD_set_same (List.replicate (12 - st.length) 0) (i - st.length) (2 ^ k) 0 hb2
    rw [hstate, hg] at hgetD
    exact (Nat.two_pow_pos k).ne' hgetD.symm

/-- Claim C6 (amended): for a validly encoded message, flipping a single bit
of the cameraId byte (offset 0), the bridgeId byte (17), the sourceStatus
byte (18) or the checksum byte (19), or of a state byte before the NUL
terminator provided the flip does not zero that byte, makes the receiver's
validation return false; but flipping a bit anywhere in the four timestamp
bytes (13..16) or in the state padding strictly after the NUL terminator is
NOT detected — validation still accepts the block even though it decodes to
a different message. -/
theorem flip_detection_characterization (c ts b s : Nat) (st : List Nat) (p k : Nat)
    (hc : c < 256) (hb : b < 256) (hs : s < 256) (hts : ts < 4294967296)
    (hnz : ∀ x ∈ st, x ≠ 0) (hlen : st.length ≤ 11) (hk : k < 8) :
    ((p = 0 ∨ p = 17 ∨ p = 18 ∨ p = 19
        ∨ (1 ≤ p ∧ p ≤ st.length ∧ st.getD (p - 1) 0 ^^^ 2 ^ k ≠ 0)) →
      (decodeTally (flipBit (serializeTally (mkTallyMessage c st ts b s)) p k)).map
          verifyMessage = some false)
    ∧ (((13 ≤ p ∧ p ≤ 16) ∨ (st.length + 2 ≤ p ∧ p ≤ 12)) →
      (decodeTally (flipBit (serializeTally (mkTallyMessage c st ts b s)) p k)).map
          verifyMessage = some true
        ∧ decodeTally (flipBit (serializeTally (mkTallyMessage c st ts b s)) p k)
            ≠ some (mkTallyMessage c st ts b s)) := by
  constructor
  · rintro (rfl | rfl | rfl | rfl | ⟨h1, h2, h3⟩)
    · exact flip_cameraId_detected c ts b s k st hts hnz hlen
    · exact flip_bridgeId_detected c ts b s k st hts hnz hlen
    · exact flip_bridgeStatus_detected c ts b s k st hts hnz hlen
    · exact flip_checksum_detected c ts b s k st hts hnz hlen
    · have hp : p = (p - 1) + 1 := by omega
      rw [hp]
      exact flip_state_detected c ts b s k (p - 1) st hts hnz hlen (by omega) h3
  · rintro (⟨h1, h2⟩ | ⟨h1, h2⟩)
    · have hp : p = 13 + (p - 13) := by omega
      rw [hp]
      exact flip_timestamp_undetected c ts b s k (p - 13) st hts hnz hlen hk (by omega)
    · have hp : p = (p - 1) + 1 := by omega
      rw [hp]
      exact flip_padding_undetected c ts b s k (p - 1) st hts hnz hlen (by omega) (by omega)

/-- Witness for the amended claim C6: the cameraId byte (position 0, a
detected flip) and the timestamp byte at position 13 (an undetected flip) of
a concrete PROGRAM message. -/
theorem flip_detection_characterization_witness :
    (((0 = 0 ∨ 0 = 17 ∨ 0 = 18 ∨ 0 = 19
        ∨ (1 ≤ 0 ∧ 0 ≤ progBytes.length ∧ progBytes.getD (0 - 1) 0 ^^^ 2 ^ 0 ≠ 0)) →
      (decodeTally (flipBit (serializeTally (mkTallyMessage 1 progBytes 12345 1 1)) 0 0)).map
          verifyMessage = some false)
    ∧ (((13 ≤ 0 ∧ 0 ≤ 16) ∨ (progBytes.length + 2 ≤ 0 ∧ 0 ≤ 12)) →
      (decodeTally (flipBit (serializeTally (mkTallyMessage 1 progBytes 12345 1 1)) 0 0)).map
          verifyMessage = some true
        ∧ decodeTally (flipBit (serializeTally (mkTallyMessage 1 progBytes 12345 1 1)) 0 0)
            ≠ some (mkTallyMessage 1 progBytes 12345 1 1)))
    ∧ (((13 = 0 ∨ 13 = 17 ∨ 13 = 18 ∨ 13 = 19
        ∨ (1 ≤ 13 ∧ 13 ≤ progBytes.length ∧ progBytes.getD (13 - 1) 0 ^^^ 2 ^ 0 ≠ 0)) →
      (decodeTally (flipBit (serializeTally (mkTallyMessage 1 progBytes 12345 1 1)) 13 0)).map
          verifyMessage = some false)
    ∧ (((13 ≤ 13 ∧ 13 ≤ 16) ∨ (progBytes.length + 2 ≤ 13 ∧ 13 ≤ 12)) →
      (decodeTally (flipBit (serializeTally (mkTallyMessage 1 progBytes 12345 1 1)) 13 0)).map
          verifyMessage = some true
        ∧ decodeTally (flipBit (serializeTally (mkTallyMessage 1 progBytes 12345 1 1)) 13 0)
            ≠ some (mkTallyMessage 1 progBytes 12345 1 1))) :=
  ⟨flip_detection_characterization 1 12345 1 1 progBytes 0 0 (by decide) (by decide)
      (by decide) (by decide) (by decide) (by decide) (by decide),
   flip_detection_characterization 1 12345 1 1 progBytes 13 0 (by decide) (by decide)
      (by decide) (by decide) (by decide) (by decide) (by decide)⟩
